import Mathlib

/-!
# bus-location-api: a shallow embedding of the two HTTP handlers

The repository holds the same two handlers twice: `main.go` (a stand-alone
server: `getBusVehicleLocation`, `getBusstopPole`, wrapped in `corsMiddleware`)
and `api/busvehicle.go`, `api/busstoppole.go` (one `Handler` each).

Modelling conventions.

* A Go `string` is a Lean `String`, the sequence of its characters.  Substring search
  and splitting at `:` are done on that sequence, which on UTF-8 text finds the same
  matches as Go's byte-wise search; strings that are not valid UTF-8 are outside the
  model.
* `float64` values are only ever copied, so they are carried as their 64-bit pattern.
* A decoded `interface{}` is a `JsonValue`, the six shapes `encoding/json` produces.
* Everything outside the repository that a handler calls (environment, file system,
  upstream HTTP, `encoding/json` decoding, `time.Parse`, `path/filepath`) is a field
  of `World`; a handler is a function of the world and the request, and returns its
  response together with the trace of the world accesses it made, in order.
* A `Response` is what `net/http` sends for the handler: `http.Error` follows
  `WriteHeader` and `Write` of the server (a panic for a code outside 100..999, no body
  for the statuses that allow none), and `json.Encoder.Encode` can fail on a
  `time.Time` that does not marshal.  Response headers, `log.Printf` lines and the
  wire encoding of the query string and of the JSON body are not part of the model.
-/

namespace BusLocation

/-! ## Go values -/

/-- A `[]byte`: file contents and HTTP bodies, never inspected by the handlers. -/
abbrev Bytes := List Nat

/-- A `float64`, as its IEEE-754 bit pattern. -/
structure Float64 where
  bits : Nat
  deriving DecidableEq, Repr

/-- What `encoding/json` stores in an `interface{}`: `nil`, `bool`, `float64`,
`string`, `[]interface{}` or `map[string]interface{}`. -/
inductive JsonValue where
  | null
  | bool (b : Bool)
  | number (f : Float64)
  | string (s : String)
  | array (xs : List JsonValue)
  | object (kvs : List (String × JsonValue))

/-- Index expression `m[key]` on a `map[string]interface{}`: the stored value, or the
zero value `nil` when the key is missing. -/
def mapIndex (m : List (String × JsonValue)) (key : String) : JsonValue :=
  match m.lookup key with
  | some v => v
  | none => JsonValue.null

/-- A `time.Time`: seconds and nanoseconds since the zero instant, and the zone
offset.  The zero value is the zero timestamp. -/
structure Time where
  sec : Int
  nsec : Nat
  offset : Int
  deriving DecidableEq, Repr

/-- The zero value `time.Time{}`. -/
def Time.zero : Time := ⟨0, 0, 0⟩

/-! ## `strings` -/

/-- Search of `substr` in `s` at every start position, left to right. -/
def containsChars (substr : List Char) : List Char → Bool
  | [] => substr.isPrefixOf []
  | c :: cs => substr.isPrefixOf (c :: cs) || containsChars substr cs

/-- Go `strings.Contains(s, substr)`. -/
def stringsContains (s substr : String) : Bool :=
  containsChars substr.data s.data

/-- The first field of `cs` cut at `sep`, and the fields after it. -/
def splitFields (sep : Char) : List Char → List Char × List (List Char)
  | [] => ([], [])
  | c :: cs =>
    if c = sep then ([], (splitFields sep cs).1 :: (splitFields sep cs).2)
    else (c :: (splitFields sep cs).1, (splitFields sep cs).2)

/-- Go `strings.Split(s, sep)` for a one-character separator, the only way the
handlers call it (`strings.Split(operator, ":")`). -/
def stringsSplit (s : String) (sep : Char) : List String :=
  ((splitFields sep s.data).1 :: (splitFields sep s.data).2).map String.mk

/-! ## Records (declared identically in `main.go` and under `api/`); the Go field
`Type` is written `Type_` -/

/-- Go `Bus`: the vehicle response record. -/
structure Bus where
  ID : String
  Type_ : String
  Date : Time
  Note : String
  Operator : String
  BusNumber : String
  BusTimetable : String
  ToBusstopPole : String
  BusroutePattern : String
  FromBusstopPole : String
  FromBusstopPoleTime : Option Time
  StartingBusstopPole : String
  TerminalBusstopPole : String
  deriving DecidableEq, Repr

/-- Go `ODPTBus`: the upstream vehicle record. -/
structure ODPTBus where
  ID : String
  Type_ : String
  Date : String
  Context : String
  Valid : String
  Note : String
  SameAs : String
  Busroute : String
  Operator : String
  BusNumber : String
  Frequency : Int
  BusTimetable : String
  ToBusstopPole : String
  BusroutePattern : String
  FromBusstopPole : String
  FromBusstopPoleTime : String
  StartingBusstopPole : String
  TerminalBusstopPole : String
  deriving DecidableEq, Repr

/-- Go `BusstopPole`: the stop response record. -/
structure BusstopPole where
  ID : String
  Type_ : String
  SameAs : String
  Date : String
  Title : String
  Long : Float64
  Lat : Float64
  Operator : List String
  deriving DecidableEq, Repr

/-- Go `ODPTBusstopPole`: the upstream stop record; `Title` is an `interface{}`. -/
structure ODPTBusstopPole where
  ID : String
  Type_ : String
  Title : JsonValue
  Date : String
  DCTitle : String
  Long : Float64
  Lat : Float64
  Kana : String
  Note : String
  SameAs : String
  Operator : List String

/-! ## `net/http`, `net/url` and the outside world -/

/-- The part of `*http.Request` the handlers read: the method, and the query string
as the key/value pairs it holds, in order. -/
structure Request where
  method : String
  query : List (String × String)

/-- Go `r.URL.Query().Get(key)`: the first value stored under `key`, or `""`. -/
def queryGet (query : List (String × String)) (key : String) : String :=
  match query.lookup key with
  | some v => v
  | none => ""

/-- A `url.Values` under construction: the pairs added so far, in order. -/
abbrev Values := List (String × String)

/-- Go `q.Add(key, value)`. -/
def valuesAdd (q : Values) (key value : String) : Values :=
  q ++ [(key, value)]

/-- What ends up in the response writer.  `aborted` stands for no response at all: the
handler panicked before anything was written, and the server drops the connection. -/
inductive Body where
  | empty
  | text (s : String)
  | buses (bs : List Bus)
  | busstops (ps : List BusstopPole)
  | aborted
  deriving DecidableEq

/-- The response: status code and body.  With body `aborted` the status is the zero
value of the writer, nothing having been sent. -/
structure Response where
  status : Int
  body : Body
  deriving DecidableEq

/-- Go `http.StatusOK`. -/
def StatusOK : Int := 200

/-- Go `http.StatusBadRequest`. -/
def StatusBadRequest : Int := 400

/-- Go `http.StatusNotFound`. -/
def StatusNotFound : Int := 404

/-- Go `http.StatusInternalServerError`. -/
def StatusInternalServerError : Int := 500

/-- Go `checkWriteHeaderCode` of `net/http`: `WriteHeader` panics on a code that does
not pass. -/
def validWriteHeaderCode (code : Int) : Bool :=
  decide (100 ≤ code ∧ code ≤ 999)

/-- Go `bodyAllowedForStatus` of `net/http`: no body goes out with a 1xx, 204 or 304
status. -/
def bodyAllowedForStatus (code : Int) : Bool :=
  if 100 ≤ code ∧ code ≤ 199 then false
  else if code = 204 then false
  else if code = 304 then false
  else true

/-- Go `http.Error(w, msg, code)` on a writer nothing has been written to, that is
`w.WriteHeader(code)` followed by `fmt.Fprintln(w, msg)`.

* A code outside 100..999 makes `WriteHeader` panic: no response.
* A 1xx code other than 101 is sent as an informational response without closing the
  header (Go 1.19 and later), so the write that follows goes out under the implicit
  status 200.
* Otherwise the status is `code`, and the body is `msg` and a newline when the status
  allows a body, empty when it does not (101, 204, 304). -/
def httpError (msg : String) (code : Int) : Response :=
  if !validWriteHeaderCode code then ⟨0, Body.aborted⟩
  else if 100 ≤ code ∧ code ≤ 199 ∧ code ≠ 101 then ⟨200, Body.text (msg ++ "\n")⟩
  else if bodyAllowedForStatus code then ⟨code, Body.text (msg ++ "\n")⟩
  else ⟨code, Body.empty⟩

/-- Result of `os.Stat` as far as `os.IsNotExist` tells it apart. -/
inductive StatResult where
  | found
  | notExist
  | otherError
  deriving DecidableEq

/-- An upstream `*http.Response`: the status code, and what `io.ReadAll(resp.Body)`
gives (`none` when reading fails). -/
structure UpstreamResponse where
  StatusCode : Int
  Body : Option Bytes
  deriving DecidableEq

/-- The collaborators outside the repository. -/
structure World where
  /-- Go `os.Getenv`. -/
  getenv : String → String
  /-- Go `http.NewRequest(method, url, nil)` succeeds. -/
  newRequest : String → String → Bool
  /-- Go `client.Do(req)` for a request to `url` carrying the query `q`; `none` on error. -/
  clientDo : String → Values → Option UpstreamResponse
  /-- Go `json.Unmarshal(body, &odptBuses)`; `none` on error. -/
  unmarshalBuses : Bytes → Option (List ODPTBus)
  /-- Go `time.Parse(layout, value)`; `none` on error. -/
  timeParse : String → String → Option Time
  /-- Go `(time.Time).MarshalJSON` succeeds on the value. -/
  marshalTime : Time → Bool
  /-- Go `os.Executable()`; `none` on error. -/
  osExecutable : Option String
  /-- Go `filepath.Dir`. -/
  filepathDir : String → String
  /-- Go `filepath.Join`. -/
  filepathJoin : List String → String
  /-- Go `os.Stat`. -/
  osStat : String → StatResult
  /-- Go `os.ReadFile`; `none` on error. -/
  osReadFile : String → Option Bytes
  /-- Go `json.Unmarshal(file, &odptBusstops)`; `none` on error. -/
  unmarshalBusstops : Bytes → Option (List ODPTBusstopPole)
  /-- The embedded asset `assets/odpt_BusstopPole_Toei.json` (`toeiData`). -/
  toeiData : Bytes

/-- An access to the outside world made by a handler. -/
inductive Effect where
  | getenv (name : String)
  | clientDo (url : String) (q : Values)
  | osExecutable
  | osStat (path : String)
  | osReadFile (path : String)
  deriving DecidableEq

/-- A handler run: the world accesses in order, and the response. -/
structure Outcome where
  trace : List Effect
  response : Response
  deriving DecidableEq

/-- A handler, as a function of the world and the request. -/
abbrev HandlerFunc := World → Request → Outcome

/-- Go `json.Marshal` succeeds on the value: a vehicle list marshals when the date and
the departure timestamp (when present) of every record do; a stop list always
marshals, its strings and decoded `float64` values being encodable. -/
def marshals (w : World) : Body → Bool
  | Body.buses bs =>
    bs.all (fun b =>
      w.marshalTime b.Date &&
        (match b.FromBusstopPoleTime with
         | some t => w.marshalTime t
         | none => true))
  | _ => true

/-- Go `json.NewEncoder(w).Encode(v)` on a writer nothing has been written to: the
value is marshalled in full before anything is written, so the result is either the
response with status 200 and the value, or an error (`none`) with nothing written.
A failing write of the response stream is not modelled. -/
def encodeJSON (w : World) (v : Body) : Option Response :=
  if marshals w v then some ⟨StatusOK, v⟩ else none

/-- Go `time.RFC3339`. -/
def timeRFC3339 : String := "2006-01-02T15:04:05Z07:00"

/-- The constant `odptAPIBaseURL` (the same in `main.go` and `api/busvehicle.go`). -/
def odptAPIBaseURL : String := "https://api-public.odpt.org/api/v4"

/-! ## The busstop loop, `main.go` lines 296-333 -/

namespace Main

/-- The `titleStr` block of `getBusstopPole` (lines 299-308). -/
def titleStr (odptBusstop : ODPTBusstopPole) : String :=
  if odptBusstop.DCTitle != "" then odptBusstop.DCTitle
  else
    match odptBusstop.Title with
    | JsonValue.object titleMap =>
      match mapIndex titleMap "ja" with
      | JsonValue.string ja => ja
      | _ => ""
    | JsonValue.string titleString => titleString
    | _ => ""

/-- One iteration of the `for ... range odptBusstops` loop of `getBusstopPole`: the
three `continue` guards, then the `append`. -/
def busstopStep (filterID filterTitle filterSameAs : String)
    (busstops : List BusstopPole) (odptBusstop : ODPTBusstopPole) : List BusstopPole :=
  let titleStr := titleStr odptBusstop
  if filterID != "" && odptBusstop.ID != filterID then busstops
  else if filterTitle != "" && !stringsContains titleStr filterTitle then busstops
  else if filterSameAs != "" && odptBusstop.SameAs != filterSameAs then busstops
  else
    busstops ++ [{ ID := odptBusstop.ID, Type_ := odptBusstop.Type_,
                   SameAs := odptBusstop.SameAs, Date := odptBusstop.Date,
                   Title := titleStr, Long := odptBusstop.Long, Lat := odptBusstop.Lat,
                   Operator := odptBusstop.Operator }]

/-- The whole loop of `getBusstopPole`, started from the empty slice. -/
def busstopLoop (odptBusstops : List ODPTBusstopPole)
    (filterID filterTitle filterSameAs : String) : List BusstopPole :=
  odptBusstops.foldl (busstopStep filterID filterTitle filterSameAs) []

/-- The dataset file name, `fmt.Sprintf("odpt_BusstopPole_%s.json", operatorName)`. -/
def datasetFileName (operatorName : String) : String :=
  "odpt_BusstopPole_" ++ operatorName ++ ".json"

/-- The executable-relative candidate path (lines 269-270). -/
def execRelativePath (w : World) (execPath operatorName : String) : String :=
  w.filepathJoin [w.filepathDir execPath, "assets", datasetFileName operatorName]

/-- The working-directory-relative candidate path (line 274). -/
def workingDirPath (w : World) (operatorName : String) : String :=
  w.filepathJoin ["assets", datasetFileName operatorName]

/-- The path that is read (lines 273-275): the working-directory one exactly when
`os.Stat` reports the executable-relative one as not existing. -/
def chosenPath (w : World) (execPath operatorName : String) : String :=
  if w.osStat (execRelativePath w execPath operatorName) = StatResult.notExist then
    workingDirPath w operatorName
  else execRelativePath w execPath operatorName

/-- The body of `getBusstopPole` (lines 240-344). -/
def getBusstopPole : HandlerFunc := fun w r =>
  let operator := queryGet r.query "operator"
  if operator == "" then
    ⟨[], httpError "operator parameter is required" StatusBadRequest⟩
  else
    let filterID := queryGet r.query "id"
    let filterTitle := queryGet r.query "title"
    let filterSameAs := queryGet r.query "sameAs"
    let operatorParts := stringsSplit operator ':'
    if operatorParts.length != 2 then
      ⟨[], httpError "invalid operator format" StatusBadRequest⟩
    else
      let operatorName := operatorParts.getD 1 ""
      match w.osExecutable with
      | none => ⟨[Effect.osExecutable], httpError "Internal server error" StatusInternalServerError⟩
      | some execPath =>
        let filePath := chosenPath w execPath operatorName
        let trace := [Effect.osExecutable,
          Effect.osStat (execRelativePath w execPath operatorName), Effect.osReadFile filePath]
        match w.osReadFile filePath with
        | none => ⟨trace, httpError ("Data not found for operator: " ++ operator) StatusNotFound⟩
        | some file =>
          match w.unmarshalBusstops file with
          | none => ⟨trace, httpError "Error parsing data" StatusInternalServerError⟩
          | some odptBusstops =>
            let busstops := busstopLoop odptBusstops filterID filterTitle filterSameAs
            match encodeJSON w (Body.busstops busstops) with
            | some resp => ⟨trace, resp⟩
            | none => ⟨trace, httpError "Error encoding response" StatusInternalServerError⟩

/-- The `url.Values` built by `getBusVehicleLocation` (lines 128-159); `consumerKey`
is what `os.Getenv("ODPT_CONSUMER_KEY")` returned. -/
def buildQuery (operator busNumber busTimetable toBusstopPole busroutePattern
    fromBusstopPole startingBusstopPole terminalBusstopPole consumerKey : String) : Values :=
  let q : Values := []
  let q := valuesAdd q "odpt:operator" operator
  let q := if busNumber != "" then valuesAdd q "odpt:busNumber" busNumber else q
  let q := if busTimetable != "" then valuesAdd q "odpt:busTimetable" busTimetable else q
  let q := if toBusstopPole != "" then valuesAdd q "odpt:toBusstopPole" toBusstopPole else q
  let q := if busroutePattern != "" then valuesAdd q "odpt:busroutePattern" busroutePattern else q
  let q := if fromBusstopPole != "" then valuesAdd q "odpt:fromBusstopPole" fromBusstopPole else q
  let q := if startingBusstopPole != "" then
    valuesAdd q "odpt:startingBusstopPole" startingBusstopPole else q
  let q := if terminalBusstopPole != "" then
    valuesAdd q "odpt:terminalBusstopPole" terminalBusstopPole else q
  let q := if consumerKey != "" then valuesAdd q "acl:consumerKey" consumerKey else q
  q

/-- The record built in one iteration of the `for ... range odptBuses` loop of
`getBusVehicleLocation` (lines 200-223): the struct literal, then the two time fields. -/
def convertBus (w : World) (odptBus : ODPTBus) : Bus :=
  let bus : Bus :=
    { ID := odptBus.ID, Type_ := odptBus.Type_, Date := Time.zero, Note := odptBus.Note,
      Operator := odptBus.Operator, BusNumber := odptBus.BusNumber,
      BusTimetable := odptBus.BusTimetable, ToBusstopPole := odptBus.ToBusstopPole,
      BusroutePattern := odptBus.BusroutePattern, FromBusstopPole := odptBus.FromBusstopPole,
      FromBusstopPoleTime := none, StartingBusstopPole := odptBus.StartingBusstopPole,
      TerminalBusstopPole := odptBus.TerminalBusstopPole }
  let bus :=
    match w.timeParse timeRFC3339 odptBus.Date with
    | some parsedDate => { bus with Date := parsedDate }
    | none => bus
  let bus :=
    if odptBus.FromBusstopPoleTime != "" then
      match w.timeParse timeRFC3339 odptBus.FromBusstopPoleTime with
      | some parsedTime => { bus with FromBusstopPoleTime := some parsedTime }
      | none => bus
    else bus
  bus

/-- One iteration of that loop: build the record and `append` it (line 225). -/
def busStep (w : World) (buses : List Bus) (odptBus : ODPTBus) : List Bus :=
  buses ++ [convertBus w odptBus]

/-- The whole loop of `getBusVehicleLocation`, started from the empty slice. -/
def busLoop (w : World) (odptBuses : List ODPTBus) : List Bus :=
  odptBuses.foldl (busStep w) []

/-- The body of `getBusVehicleLocation` (lines 101-237). -/
def getBusVehicleLocation : HandlerFunc := fun w r =>
  let operator := queryGet r.query "operator"
  if operator == "" then
    ⟨[], httpError "operator parameter is required" StatusBadRequest⟩
  else
    let busNumber := queryGet r.query "busNumber"
    let busTimetable := queryGet r.query "busTimetable"
    let toBusstopPole := queryGet r.query "toBusstopPole"
    let busroutePattern := queryGet r.query "busroutePattern"
    let fromBusstopPole := queryGet r.query "fromBusstopPole"
    let startingBusstopPole := queryGet r.query "startingBusstopPole"
    let terminalBusstopPole := queryGet r.query "terminalBusstopPole"
    let apiURL := odptAPIBaseURL ++ "/odpt:Bus"
    if !w.newRequest "GET" apiURL then
      ⟨[], httpError "Internal server error" StatusInternalServerError⟩
    else
      let consumerKey := w.getenv "ODPT_CONSUMER_KEY"
      let q := buildQuery operator busNumber busTimetable toBusstopPole busroutePattern
        fromBusstopPole startingBusstopPole terminalBusstopPole consumerKey
      let trace := [Effect.getenv "ODPT_CONSUMER_KEY", Effect.clientDo apiURL q]
      match w.clientDo apiURL q with
      | none => ⟨trace, httpError "Error requesting external API" StatusInternalServerError⟩
      | some resp =>
        if resp.StatusCode != StatusOK then
          ⟨trace, httpError ("External API returned status: " ++ toString resp.StatusCode)
            resp.StatusCode⟩
        else
          match resp.Body with
          | none => ⟨trace, httpError "Error reading response" StatusInternalServerError⟩
          | some body =>
            match w.unmarshalBuses body with
            | none => ⟨trace, httpError "Error parsing response" StatusInternalServerError⟩
            | some odptBuses =>
              let buses := busLoop w odptBuses
              match encodeJSON w (Body.buses buses) with
              | some resp => ⟨trace, resp⟩
              | none =>
                ⟨trace, httpError "Error encoding response" StatusInternalServerError⟩

/-- Go `corsMiddleware(next)` (lines 85-98): an `OPTIONS` request is answered with a
bare 200, every other request goes to `next`. -/
def corsMiddleware (next : HandlerFunc) : HandlerFunc := fun w r =>
  if r.method == "OPTIONS" then ⟨[], ⟨StatusOK, Body.empty⟩⟩
  else next w r

/-- The route `/location/busvehicle` registered in `main`. -/
def busvehicleRoute : HandlerFunc := corsMiddleware getBusVehicleLocation

/-- The route `/busstoppole` registered in `main`. -/
def busstoppoleRoute : HandlerFunc := corsMiddleware getBusstopPole

end Main

/-! ## `api/busstoppole.go` -/

namespace ApiBusstoppole

/-- The `titleStr` block of `Handler` (lines 89-98). -/
def titleStr (odptBusstop : ODPTBusstopPole) : String :=
  if odptBusstop.DCTitle != "" then odptBusstop.DCTitle
  else
    match odptBusstop.Title with
    | JsonValue.object titleMap =>
      match mapIndex titleMap "ja" with
      | JsonValue.string ja => ja
      | _ => ""
    | JsonValue.string titleString => titleString
    | _ => ""

/-- One iteration of the `for ... range odptBusstops` loop of `Handler` (lines 87-123). -/
def busstopStep (filterID filterTitle filterSameAs : String)
    (busstops : List BusstopPole) (odptBusstop : ODPTBusstopPole) : List BusstopPole :=
  let titleStr := titleStr odptBusstop
  if filterID != "" && odptBusstop.ID != filterID then busstops
  else if filterTitle != "" && !stringsContains titleStr filterTitle then busstops
  else if filterSameAs != "" && odptBusstop.SameAs != filterSameAs then busstops
  else
    busstops ++ [{ ID := odptBusstop.ID, Type_ := odptBusstop.Type_,
                   SameAs := odptBusstop.SameAs, Date := odptBusstop.Date,
                   Title := titleStr, Long := odptBusstop.Long, Lat := odptBusstop.Lat,
                   Operator := odptBusstop.Operator }]

/-- The whole loop of `Handler`, started from the empty slice. -/
def busstopLoop (odptBusstops : List ODPTBusstopPole)
    (filterID filterTitle filterSameAs : String) : List BusstopPole :=
  odptBusstops.foldl (busstopStep filterID filterTitle filterSameAs) []

/-- Go `Handler` of `api/busstoppole.go` (lines 39-134). -/
def Handler : HandlerFunc := fun w r =>
  if r.method == "OPTIONS" then ⟨[], ⟨StatusOK, Body.empty⟩⟩
  else
    let operator := queryGet r.query "operator"
    if operator == "" then
      ⟨[], httpError "operator parameter is required" StatusBadRequest⟩
    else
      let filterID := queryGet r.query "id"
      let filterTitle := queryGet r.query "title"
      let filterSameAs := queryGet r.query "sameAs"
      let operatorParts := stringsSplit operator ':'
      if operatorParts.length != 2 then
        ⟨[], httpError "invalid operator format" StatusBadRequest⟩
      else
        let operatorName := operatorParts.getD 1 ""
        if operatorName != "Toei" then
          ⟨[], httpError "Only Toei operator is supported" StatusBadRequest⟩
        else
          match w.unmarshalBusstops w.toeiData with
          | none => ⟨[], httpError "Error parsing data" StatusInternalServerError⟩
          | some odptBusstops =>
            let busstops := busstopLoop odptBusstops filterID filterTitle filterSameAs
            match encodeJSON w (Body.busstops busstops) with
            | some resp => ⟨[], resp⟩
            | none => ⟨[], httpError "Error encoding response" StatusInternalServerError⟩

end ApiBusstoppole

/-! ## `api/busvehicle.go` -/

namespace ApiBusvehicle

/-- The `url.Values` built by `Handler` (lines 90-121); `consumerKey` is what
`os.Getenv("odpt_consumer_key")` returned. -/
def buildQuery (operator busNumber busTimetable toBusstopPole busroutePattern
    fromBusstopPole startingBusstopPole terminalBusstopPole consumerKey : String) : Values :=
  let q : Values := []
  let q := valuesAdd q "odpt:operator" operator
  let q := if busNumber != "" then valuesAdd q "odpt:busNumber" busNumber else q
  let q := if busTimetable != "" then valuesAdd q "odpt:busTimetable" busTimetable else q
  let q := if toBusstopPole != "" then valuesAdd q "odpt:toBusstopPole" toBusstopPole else q
  let q := if busroutePattern != "" then valuesAdd q "odpt:busroutePattern" busroutePattern else q
  let q := if fromBusstopPole != "" then valuesAdd q "odpt:fromBusstopPole" fromBusstopPole else q
  let q := if startingBusstopPole != "" then
    valuesAdd q "odpt:startingBusstopPole" startingBusstopPole else q
  let q := if terminalBusstopPole != "" then
    valuesAdd q "odpt:terminalBusstopPole" terminalBusstopPole else q
  let q := if consumerKey != "" then valuesAdd q "acl:consumerKey" consumerKey else q
  q

/-- The record built in one iteration of the `for ... range odptBuses` loop of
`Handler` (lines 162-185): the struct literal, then the two time fields. -/
def convertBus (w : World) (odptBus : ODPTBus) : Bus :=
  let bus : Bus :=
    { ID := odptBus.ID, Type_ := odptBus.Type_, Date := Time.zero, Note := odptBus.Note,
      Operator := odptBus.Operator, BusNumber := odptBus.BusNumber,
      BusTimetable := odptBus.BusTimetable, ToBusstopPole := odptBus.ToBusstopPole,
      BusroutePattern := odptBus.BusroutePattern, FromBusstopPole := odptBus.FromBusstopPole,
      FromBusstopPoleTime := none, StartingBusstopPole := odptBus.StartingBusstopPole,
      TerminalBusstopPole := odptBus.TerminalBusstopPole }
  let bus :=
    match w.timeParse timeRFC3339 odptBus.Date with
    | some parsedDate => { bus with Date := parsedDate }
    | none => bus
  let bus :=
    if odptBus.FromBusstopPoleTime != "" then
      match w.timeParse timeRFC3339 odptBus.FromBusstopPoleTime with
      | some parsedTime => { bus with FromBusstopPoleTime := some parsedTime }
      | none => bus
    else bus
  bus

/-- One iteration of that loop: build the record and `append` it (line 187). -/
def busStep (w : World) (buses : List Bus) (odptBus : ODPTBus) : List Bus :=
  buses ++ [convertBus w odptBus]

/-- The whole loop of `Handler`, started from the empty slice. -/
def busLoop (w : World) (odptBuses : List ODPTBus) : List Bus :=
  odptBuses.foldl (busStep w) []

/-- Go `Handler` of `api/busvehicle.go` (lines 53-199). -/
def Handler : HandlerFunc := fun w r =>
  if r.method == "OPTIONS" then ⟨[], ⟨StatusOK, Body.empty⟩⟩
  else
    let operator := queryGet r.query "operator"
    if operator == "" then
      ⟨[], httpError "operator parameter is required" StatusBadRequest⟩
    else
      let busNumber := queryGet r.query "busNumber"
      let busTimetable := queryGet r.query "busTimetable"
      let toBusstopPole := queryGet r.query "toBusstopPole"
      let busroutePattern := queryGet r.query "busroutePattern"
      let fromBusstopPole := queryGet r.query "fromBusstopPole"
      let startingBusstopPole := queryGet r.query "startingBusstopPole"
      let terminalBusstopPole := queryGet r.query "terminalBusstopPole"
      let apiURL := odptAPIBaseURL ++ "/odpt:Bus"
      if !w.newRequest "GET" apiURL then
        ⟨[], httpError "Internal server error" StatusInternalServerError⟩
      else
        let consumerKey := w.getenv "odpt_consumer_key"
        let q := buildQuery operator busNumber busTimetable toBusstopPole busroutePattern
          fromBusstopPole startingBusstopPole terminalBusstopPole consumerKey
        let trace := [Effect.getenv "odpt_consumer_key", Effect.clientDo apiURL q]
        match w.clientDo apiURL q with
        | none => ⟨trace, httpError "Error requesting external API" StatusInternalServerError⟩
        | some resp =>
          if resp.StatusCode != StatusOK then
            ⟨trace, httpError ("External API returned status: " ++ toString resp.StatusCode)
              resp.StatusCode⟩
          else
            match resp.Body with
            | none => ⟨trace, httpError "Error reading response" StatusInternalServerError⟩
            | some body =>
              match w.unmarshalBuses body with
              | none => ⟨trace, httpError "Error parsing response" StatusInternalServerError⟩
              | some odptBuses =>
                let buses := busLoop w odptBuses
                match encodeJSON w (Body.buses buses) with
                | some resp => ⟨trace, resp⟩
                | none =>
                  ⟨trace, httpError "Error encoding response" StatusInternalServerError⟩

end ApiBusvehicle

/-! ## Specification-side notions for the busstop pipeline -/

/-- The resolved title of a stop record, as the specification words the policy: the
legacy title when non-empty, else the `"ja"` entry of a title mapping, else a plain
string title, else empty. -/
def resolvedTitle (o : ODPTBusstopPole) : String :=
  if o.DCTitle = "" then
    match o.Title with
    | JsonValue.object m =>
      match m.lookup "ja" with
      | some (JsonValue.string ja) => ja
      | _ => ""
    | JsonValue.string t => t
    | _ => ""
  else o.DCTitle

/-- A record passes the filter triple: every filter whose parameter is non-empty holds. -/
def passesFilters (filterID filterTitle filterSameAs : String) (o : ODPTBusstopPole) : Prop :=
  (filterID ≠ "" → o.ID = filterID) ∧
  (filterTitle ≠ "" → filterTitle.data <:+: (resolvedTitle o).data) ∧
  (filterSameAs ≠ "" → o.SameAs = filterSameAs)

instance (filterID filterTitle filterSameAs : String) (o : ODPTBusstopPole) :
    Decidable (passesFilters filterID filterTitle filterSameAs o) := by
  unfold passesFilters
  infer_instance

/-- The flattened shape of a stop record. -/
def flatten (o : ODPTBusstopPole) : BusstopPole :=
  { ID := o.ID, Type_ := o.Type_, SameAs := o.SameAs, Date := o.Date,
    Title := resolvedTitle o, Long := o.Long, Lat := o.Lat, Operator := o.Operator }

/-- An output record read back as an upstream record whose title is the plain string. -/
def readBack (p : BusstopPole) : ODPTBusstopPole :=
  { ID := p.ID, Type_ := p.Type_, Title := JsonValue.string p.Title, Date := p.Date,
    DCTitle := "", Long := p.Long, Lat := p.Lat, Kana := "", Note := "",
    SameAs := p.SameAs, Operator := p.Operator }

/-- The substring of `s` after its first colon (empty when there is none). -/
def afterFirstColon (s : String) : String :=
  String.mk ((s.data.dropWhile (fun c => c != ':')).drop 1)

/-- The substring of `s` before its first colon (all of `s` when there is none). -/
def beforeFirstColon (s : String) : String :=
  String.mk (s.data.takeWhile (fun c => c != ':'))

/-! ## Specification-side notions for the vehicle pipeline -/

/-- The upstream URL, `fmt.Sprintf("%s/odpt:Bus", odptAPIBaseURL)`. -/
def apiURL : String := odptAPIBaseURL ++ "/odpt:Bus"

/-- The query `main.go` hands to `client.Do` for the request `r`. -/
def Main.sentQuery (w : World) (r : Request) : Values :=
  Main.buildQuery (queryGet r.query "operator") (queryGet r.query "busNumber")
    (queryGet r.query "busTimetable") (queryGet r.query "toBusstopPole")
    (queryGet r.query "busroutePattern") (queryGet r.query "fromBusstopPole")
    (queryGet r.query "startingBusstopPole") (queryGet r.query "terminalBusstopPole")
    (w.getenv "ODPT_CONSUMER_KEY")

/-- The query `api/busvehicle.go` hands to `client.Do` for the request `r`. -/
def ApiBusvehicle.sentQuery (w : World) (r : Request) : Values :=
  ApiBusvehicle.buildQuery (queryGet r.query "operator") (queryGet r.query "busNumber")
    (queryGet r.query "busTimetable") (queryGet r.query "toBusstopPole")
    (queryGet r.query "busroutePattern") (queryGet r.query "fromBusstopPole")
    (queryGet r.query "startingBusstopPole") (queryGet r.query "terminalBusstopPole")
    (w.getenv "odpt_consumer_key")

/-- The seven optional filters of the vehicle endpoint. -/
def optionalFilters : List String :=
  ["busNumber", "busTimetable", "toBusstopPole", "busroutePattern", "fromBusstopPole",
    "startingBusstopPole", "terminalBusstopPole"]

/-- The upstream parameters the specification asks for: the operator verbatim, each
optional filter under `odpt:<name>` exactly when it is non-empty, and the credential
under `acl:consumerKey` exactly when it is non-empty. -/
def expectedParam (credential : String) (r : Request) (key value : String) : Prop :=
  (key = "odpt:operator" ∧ value = queryGet r.query "operator") ∨
  (∃ name ∈ optionalFilters,
    key = "odpt:" ++ name ∧ value = queryGet r.query name ∧ value ≠ "") ∨
  (key = "acl:consumerKey" ∧ value = credential ∧ value ≠ "")

/-- A stop record with the given identifier, polymorphic title, legacy title and alias,
every other field at its zero value. -/
def stopRecord (id : String) (title : JsonValue) (dcTitle sameAs : String) : ODPTBusstopPole :=
  { ID := id, Type_ := "", Title := title, Date := "", DCTitle := dcTitle, Long := ⟨0⟩,
    Lat := ⟨0⟩, Kana := "", Note := "", SameAs := sameAs, Operator := [] }

/-- The record `A` of the two-record dataset: title mapping with `"ja"` entry `駅前`. -/
def recordA : ODPTBusstopPole :=
  stopRecord "A" (JsonValue.object [("ja", JsonValue.string "駅前")]) "" ""

/-- The record `B` of the two-record dataset: plain string title `Gate`. -/
def recordB : ODPTBusstopPole :=
  stopRecord "B" (JsonValue.string "Gate") "" ""

/-- The two-record dataset. -/
def datasetAB : List ODPTBusstopPole := [recordA, recordB]

/-- A response record with the given identifier and title, every other field zero. -/
def poleOf (id title : String) : BusstopPole :=
  { ID := id, Type_ := "", SameAs := "", Date := "", Title := title, Long := ⟨0⟩,
    Lat := ⟨0⟩, Operator := [] }

/-- A world in which the executable is `/srv/app`, `filepath.Join` joins with `/`,
`filepath.Dir` answers `/srv`, only `/srv/assets/odpt_BusstopPole_Toei.json` exists
and reads as the (empty) byte string that decodes to the two-record dataset; the
embedded asset decodes to the same dataset; the upstream answers 503 to every call
and no credential is configured. -/
def worldAB : World :=
  { getenv := fun _ => "",
    newRequest := fun _ _ => true,
    clientDo := fun _ _ => some ⟨503, some [1]⟩,
    unmarshalBuses := fun _ => none,
    timeParse := fun _ _ => none,
    marshalTime := fun t => decide (-86400 < t.offset ∧ t.offset < 86400),
    osExecutable := some "/srv/app",
    filepathDir := fun _ => "/srv",
    filepathJoin := fun ps => String.intercalate "/" ps,
    osStat := fun p =>
      if p = "/srv/assets/odpt_BusstopPole_Toei.json" then StatResult.found
      else StatResult.notExist,
    osReadFile := fun p =>
      if p = "/srv/assets/odpt_BusstopPole_Toei.json" then some [] else none,
    unmarshalBusstops := fun _ => some datasetAB,
    toeiData := [] }

/-- A `GET` request with the given query pairs. -/
def getRequest (query : List (String × String)) : Request :=
  { method := "GET", query := query }

/-- An upstream vehicle record with the given identifier, date and departure time,
every other field at its zero value. -/
def busRecord (id date fromTime : String) : ODPTBus :=
  { ID := id, Type_ := "", Date := date, Context := "", Valid := "", Note := "",
    SameAs := "", Busroute := "", Operator := "", BusNumber := "", Frequency := 0,
    BusTimetable := "", ToBusstopPole := "", BusroutePattern := "", FromBusstopPole := "",
    FromBusstopPoleTime := fromTime, StartingBusstopPole := "", TerminalBusstopPole := "" }

/-- Two upstream vehicle records: one with a parseable date and no departure time, one
with an unparseable date and an unparseable departure time. -/
def busesXY : List ODPTBus :=
  [busRecord "X" "2024-01-01T00:00:00Z" "", busRecord "Y" "yesterday" "soon"]

/-- A world whose upstream answers 200 with a body that decodes to `busesXY`, whose
`time.Parse` accepts only `2024-01-01T00:00:00Z`, and whose environment holds the
credential `k` under both spellings of the variable name. -/
def worldXY : World :=
  { getenv := fun _ => "k",
    newRequest := fun _ _ => true,
    clientDo := fun _ _ => some ⟨200, some []⟩,
    unmarshalBuses := fun _ => some busesXY,
    timeParse := fun _ v => if v = "2024-01-01T00:00:00Z" then some ⟨63839664000, 0, 0⟩ else none,
    marshalTime := fun t => decide (-86400 < t.offset ∧ t.offset < 86400),
    osExecutable := none,
    filepathDir := fun p => p,
    filepathJoin := fun ps => String.intercalate "/" ps,
    osStat := fun _ => StatResult.notExist,
    osReadFile := fun _ => none,
    unmarshalBusstops := fun _ => none,
    toeiData := [] }

/-- The world `worldAB` with an upstream that answers every call with status `s`. -/
def worldStatus (s : Int) : World :=
  { worldAB with clientDo := fun _ _ => some ⟨s, some [1]⟩ }

theorem containsChars_iff (substr s : List Char) :
    containsChars substr s = true ↔ substr <:+: s := by
  induction s with
  | nil => simp [containsChars]
  | cons c cs ih =>
    simp only [containsChars, Bool.or_eq_true, ih, List.isPrefixOf_iff_prefix,
      List.infix_cons_iff]

theorem stringsContains_iff (s substr : String) :
    stringsContains s substr = true ↔ substr.data <:+: s.data :=
  containsChars_iff _ _

/-! ## Lemmas on `net/http` and `encoding/json` -/

theorem httpError_badRequest (msg : String) :
    httpError msg 400 = ⟨400, Body.text (msg ++ "\n")⟩ := by
  simp [httpError, validWriteHeaderCode, bodyAllowedForStatus]

theorem httpError_notFound (msg : String) :
    httpError msg 404 = ⟨404, Body.text (msg ++ "\n")⟩ := by
  simp [httpError, validWriteHeaderCode, bodyAllowedForStatus]

theorem httpError_internalServerError (msg : String) :
    httpError msg 500 = ⟨500, Body.text (msg ++ "\n")⟩ := by
  simp [httpError, validWriteHeaderCode, bodyAllowedForStatus]

theorem httpError_sent (msg : String) (code : Int) (h1 : 200 ≤ code) (h2 : code ≤ 999)
    (h3 : code ≠ 204) (h4 : code ≠ 304) :
    httpError msg code = ⟨code, Body.text (msg ++ "\n")⟩ := by
  have ha : ¬ code ≤ 199 := by omega
  have hb : 100 ≤ code := by omega
  simp [httpError, validWriteHeaderCode, bodyAllowedForStatus, ha, hb, h2, h3, h4]

theorem httpError_bodiless (msg : String) (code : Int) (h : code = 204 ∨ code = 304) :
    httpError msg code = ⟨code, Body.empty⟩ := by
  rcases h with h | h <;> subst h <;>
    simp [httpError, validWriteHeaderCode, bodyAllowedForStatus]

theorem encodeJSON_busstops (w : World) (ps : List BusstopPole) :
    encodeJSON w (Body.busstops ps) = some ⟨StatusOK, Body.busstops ps⟩ := by
  simp [encodeJSON, marshals]

theorem main_titleStr_eq (o : ODPTBusstopPole) : Main.titleStr o = resolvedTitle o := by
  unfold Main.titleStr resolvedTitle mapIndex
  by_cases h : o.DCTitle = ""
  · simp only [h, bne_self_eq_false, Bool.false_eq_true, if_false, if_true]
    cases o.Title with
    | object m =>
      simp only
      cases m.lookup "ja" with
      | none => rfl
      | some v => cases v <;> rfl
    | _ => rfl
  · simp [h]

theorem api_titleStr_eq (o : ODPTBusstopPole) :
    ApiBusstoppole.titleStr o = resolvedTitle o := by
  unfold ApiBusstoppole.titleStr resolvedTitle mapIndex
  by_cases h : o.DCTitle = ""
  · simp only [h, bne_self_eq_false, Bool.false_eq_true, if_false, if_true]
    cases o.Title with
    | object m =>
      simp only
      cases m.lookup "ja" with
      | none => rfl
      | some v => cases v <;> rfl
    | _ => rfl
  · simp [h]

theorem main_busstopStep_eq (i t s : String) (acc : List BusstopPole) (o : ODPTBusstopPole) :
    Main.busstopStep i t s acc o =
      if passesFilters i t s o then acc ++ [flatten o] else acc := by
  unfold Main.busstopStep passesFilters flatten
  simp only [main_titleStr_eq, ← stringsContains_iff]
  by_cases h1 : i = "" <;> by_cases h2 : t = "" <;> by_cases h3 : s = "" <;>
    by_cases h4 : o.ID = i <;> by_cases h5 : o.SameAs = s <;>
    by_cases h6 : stringsContains (resolvedTitle o) t = true <;>
    simp [h1, h2, h3, h4, h5, h6]

theorem api_busstopStep_eq (i t s : String) (acc : List BusstopPole)
    (o : ODPTBusstopPole) :
    ApiBusstoppole.busstopStep i t s acc o =
      if passesFilters i t s o then acc ++ [flatten o] else acc := by
  unfold ApiBusstoppole.busstopStep passesFilters flatten
  simp only [api_titleStr_eq, ← stringsContains_iff]
  by_cases h1 : i = "" <;> by_cases h2 : t = "" <;> by_cases h3 : s = "" <;>
    by_cases h4 : o.ID = i <;> by_cases h5 : o.SameAs = s <;>
    by_cases h6 : stringsContains (resolvedTitle o) t = true <;>
    simp [h1, h2, h3, h4, h5, h6]

theorem foldl_filter_map (i t s : String)
    (step : List BusstopPole → ODPTBusstopPole → List BusstopPole)
    (hstep : ∀ acc o, step acc o = if passesFilters i t s o then acc ++ [flatten o] else acc)
    (ds : List ODPTBusstopPole) (acc : List BusstopPole) :
    ds.foldl step acc =
      acc ++ (ds.filter (fun o => decide (passesFilters i t s o))).map flatten := by
  induction ds generalizing acc with
  | nil => simp
  | cons o os ih =>
    rw [List.foldl_cons, ih, hstep]
    by_cases h : passesFilters i t s o <;> simp [h, List.filter_cons]

theorem main_busstopLoop_eq (ds : List ODPTBusstopPole) (i t s : String) :
    Main.busstopLoop ds i t s =
      (ds.filter (fun o => decide (passesFilters i t s o))).map flatten := by
  unfold Main.busstopLoop
  rw [foldl_filter_map i t s _ (main_busstopStep_eq i t s)]
  simp

theorem api_busstopLoop_eq (ds : List ODPTBusstopPole) (i t s : String) :
    ApiBusstoppole.busstopLoop ds i t s =
      (ds.filter (fun o => decide (passesFilters i t s o))).map flatten := by
  unfold ApiBusstoppole.busstopLoop
  rw [foldl_filter_map i t s _ (api_busstopStep_eq i t s)]
  simp

theorem stringsSplit_empty_operator (ns name : String) (op : String)
    (h : stringsSplit op ':' = [ns, name]) : op ≠ "" := by
  intro h0
  subst h0
  have h1 : stringsSplit "" ':' = [""] := by decide
  rw [h1] at h
  simp at h

theorem flatten_readBack (p : BusstopPole) : flatten (readBack p) = p := by
  cases p
  simp [flatten, readBack, resolvedTitle]

theorem passesFilters_readBack_flatten (i t s : String) (o : ODPTBusstopPole) :
    passesFilters i t s (readBack (flatten o)) ↔ passesFilters i t s o := by
  simp [passesFilters, readBack, flatten, resolvedTitle]

theorem filter_map_readBack (i t s : String) (ds : List ODPTBusstopPole) :
    ((((ds.filter (fun o => decide (passesFilters i t s o))).map flatten).map readBack).filter
      (fun o => decide (passesFilters i t s o))).map flatten =
      (ds.filter (fun o => decide (passesFilters i t s o))).map flatten := by
  induction ds with
  | nil => rfl
  | cons o os ih =>
    by_cases h : passesFilters i t s o
    · have h2 := (passesFilters_readBack_flatten i t s o).mpr h
      simp only [List.filter_cons, h, h2, decide_True, if_true, List.map_cons, ih,
        flatten_readBack]
    · simp only [List.filter_cons, h, decide_False, Bool.false_eq_true, if_false, ih]

theorem splitFields_not_mem (sep : Char) (cs : List Char) (h : sep ∉ cs) :
    splitFields sep cs = (cs, []) := by
  induction cs with
  | nil => rfl
  | cons c cs ih =>
    rw [List.mem_cons, not_or] at h
    have hc : ¬ c = sep := fun e => h.1 e.symm
    simp [splitFields, hc, ih h.2]

theorem splitFields_length (sep : Char) (cs : List Char) :
    (splitFields sep cs).2.length = cs.count sep := by
  induction cs with
  | nil => rfl
  | cons c cs ih =>
    by_cases hc : c = sep
    · simp [splitFields, hc, ih]
    · simp [splitFields, hc, ih, List.count_cons]

theorem splitFields_count_one (sep : Char) (cs : List Char) (h : cs.count sep = 1) :
    splitFields sep cs =
      (cs.takeWhile (fun c => c != sep), [(cs.dropWhile (fun c => c != sep)).drop 1]) := by
  induction cs with
  | nil => simp at h
  | cons c cs ih =>
    by_cases hc : c = sep
    · subst hc
      have h0 : cs.count c = 0 := by simpa [List.count_cons] using h
      have hmem : c ∉ cs := List.count_eq_zero.mp h0
      simp [splitFields, splitFields_not_mem c cs hmem, List.takeWhile_cons,
        List.dropWhile_cons]
    · have h1 : cs.count sep = 1 := by simpa [List.count_cons, hc] using h
      simp [splitFields, hc, ih h1, List.takeWhile_cons, List.dropWhile_cons]

theorem stringsSplit_length (s : String) (sep : Char) :
    (stringsSplit s sep).length = s.data.count sep + 1 := by
  simp [stringsSplit, splitFields_length]

theorem stringsSplit_colon_one (s : String) (h : s.data.count ':' = 1) :
    stringsSplit s ':' = [beforeFirstColon s, afterFirstColon s] := by
  simp [stringsSplit, splitFields_count_one ':' s.data h, beforeFirstColon, afterFirstColon]

/-! ## Lemmas on the vehicle pipeline -/

theorem mem_condAdd (c : Bool) (q : Values) (k v : String) (p : String × String) :
    p ∈ (if c = true then valuesAdd q k v else q) ↔ p ∈ q ∨ (c = true ∧ p = (k, v)) := by
  cases c <;> simp [valuesAdd]

theorem expectedParam_iff (cred : String) (r : Request) (k v : String) :
    expectedParam cred r k v ↔
      ((k = "odpt:operator" ∧ v = queryGet r.query "operator") ∨
       (k = "odpt:busNumber" ∧ v = queryGet r.query "busNumber" ∧ v ≠ "") ∨
       (k = "odpt:busTimetable" ∧ v = queryGet r.query "busTimetable" ∧ v ≠ "") ∨
       (k = "odpt:toBusstopPole" ∧ v = queryGet r.query "toBusstopPole" ∧ v ≠ "") ∨
       (k = "odpt:busroutePattern" ∧ v = queryGet r.query "busroutePattern" ∧ v ≠ "") ∨
       (k = "odpt:fromBusstopPole" ∧ v = queryGet r.query "fromBusstopPole" ∧ v ≠ "") ∨
       (k = "odpt:startingBusstopPole" ∧ v = queryGet r.query "startingBusstopPole" ∧ v ≠ "") ∨
       (k = "odpt:terminalBusstopPole" ∧ v = queryGet r.query "terminalBusstopPole" ∧ v ≠ "") ∨
       (k = "acl:consumerKey" ∧ v = cred ∧ v ≠ "")) := by
  unfold expectedParam optionalFilters
  simp only [List.mem_cons, List.mem_singleton, List.not_mem_nil, or_false, exists_eq_or_imp,
    exists_eq_left, or_assoc]
  rfl

theorem mem_valuesAdd_nil (k v : String) (p : String × String) :
    p ∈ valuesAdd [] k v ↔ p = (k, v) := by
  simp [valuesAdd]

theorem condAdd_pair (c : String) (k a b : String) :
    ((c != "") = true ∧ a = k ∧ b = c) ↔ (a = k ∧ b = c ∧ b ≠ "") := by
  constructor
  · rintro ⟨h1, ha, hb⟩
    subst hb
    exact ⟨ha, rfl, by simpa using h1⟩
  · rintro ⟨ha, hb, hne⟩
    subst hb
    exact ⟨by simpa using hne, ha, rfl⟩

theorem main_mem_sentQuery (w : World) (r : Request) (k v : String) :
    (k, v) ∈ Main.sentQuery w r ↔ expectedParam (w.getenv "ODPT_CONSUMER_KEY") r k v := by
  rw [expectedParam_iff]
  unfold Main.sentQuery Main.buildQuery
  simp only [↓mem_condAdd, condAdd_pair, mem_valuesAdd_nil, Prod.mk.injEq, or_assoc]

theorem api_mem_sentQuery (w : World) (r : Request) (k v : String) :
    (k, v) ∈ ApiBusvehicle.sentQuery w r ↔ expectedParam (w.getenv "odpt_consumer_key") r k v := by
  rw [expectedParam_iff]
  unfold ApiBusvehicle.sentQuery ApiBusvehicle.buildQuery
  simp only [↓mem_condAdd, condAdd_pair, mem_valuesAdd_nil, Prod.mk.injEq, or_assoc]

theorem keys_condAdd (c : Bool) (q : Values) (k v : String) (L : List String)
    (h : (q.map Prod.fst).Sublist L) :
    ((if c = true then valuesAdd q k v else q).map Prod.fst).Sublist (L ++ [k]) := by
  cases c
  · simpa using h.trans (List.sublist_append_left L [k])
  · simpa [valuesAdd] using List.Sublist.append h (List.Sublist.refl [k])

theorem main_keys_sublist (op a b c d e f g key : String) :
    ((Main.buildQuery op a b c d e f g key).map Prod.fst).Sublist
      ["odpt:operator", "odpt:busNumber", "odpt:busTimetable", "odpt:toBusstopPole",
        "odpt:busroutePattern", "odpt:fromBusstopPole", "odpt:startingBusstopPole",
        "odpt:terminalBusstopPole", "acl:consumerKey"] := by
  have h0 : ((valuesAdd [] "odpt:operator" op).map Prod.fst).Sublist ["odpt:operator"] := by
    simp [valuesAdd]
  have h1 := keys_condAdd (a != "") _ "odpt:busNumber" a _ h0
  have h2 := keys_condAdd (b != "") _ "odpt:busTimetable" b _ h1
  have h3 := keys_condAdd (c != "") _ "odpt:toBusstopPole" c _ h2
  have h4 := keys_condAdd (d != "") _ "odpt:busroutePattern" d _ h3
  have h5 := keys_condAdd (e != "") _ "odpt:fromBusstopPole" e _ h4
  have h6 := keys_condAdd (f != "") _ "odpt:startingBusstopPole" f _ h5
  have h7 := keys_condAdd (g != "") _ "odpt:terminalBusstopPole" g _ h6
  exact keys_condAdd (key != "") _ "acl:consumerKey" key _ h7

theorem api_keys_sublist (op a b c d e f g key : String) :
    ((ApiBusvehicle.buildQuery op a b c d e f g key).map Prod.fst).Sublist
      ["odpt:operator", "odpt:busNumber", "odpt:busTimetable", "odpt:toBusstopPole",
        "odpt:busroutePattern", "odpt:fromBusstopPole", "odpt:startingBusstopPole",
        "odpt:terminalBusstopPole", "acl:consumerKey"] := by
  have h0 : ((valuesAdd [] "odpt:operator" op).map Prod.fst).Sublist ["odpt:operator"] := by
    simp [valuesAdd]
  have h1 := keys_condAdd (a != "") _ "odpt:busNumber" a _ h0
  have h2 := keys_condAdd (b != "") _ "odpt:busTimetable" b _ h1
  have h3 := keys_condAdd (c != "") _ "odpt:toBusstopPole" c _ h2
  have h4 := keys_condAdd (d != "") _ "odpt:busroutePattern" d _ h3
  have h5 := keys_condAdd (e != "") _ "odpt:fromBusstopPole" e _ h4
  have h6 := keys_condAdd (f != "") _ "odpt:startingBusstopPole" f _ h5
  have h7 := keys_condAdd (g != "") _ "odpt:terminalBusstopPole" g _ h6
  exact keys_condAdd (key != "") _ "acl:consumerKey" key _ h7

theorem upstream_keys_nodup :
    ["odpt:operator", "odpt:busNumber", "odpt:busTimetable", "odpt:toBusstopPole",
      "odpt:busroutePattern", "odpt:fromBusstopPole", "odpt:startingBusstopPole",
      "odpt:terminalBusstopPole", "acl:consumerKey"].Nodup := by
  decide

theorem main_trace (w : World) (r : Request)
    (hop : queryGet r.query "operator" ≠ "") (hnew : w.newRequest "GET" apiURL = true) :
    (Main.getBusVehicleLocation w r).trace =
      [Effect.getenv "ODPT_CONSUMER_KEY", Effect.clientDo apiURL (Main.sentQuery w r)] := by
  unfold apiURL at hnew
  simp only [Main.getBusVehicleLocation, beq_iff_eq, hop, if_false, hnew, Bool.not_true,
    Bool.false_eq_true]
  repeat' split
  all_goals rfl

theorem api_trace (w : World) (r : Request) (hm : r.method ≠ "OPTIONS")
    (hop : queryGet r.query "operator" ≠ "") (hnew : w.newRequest "GET" apiURL = true) :
    (ApiBusvehicle.Handler w r).trace =
      [Effect.getenv "odpt_consumer_key", Effect.clientDo apiURL (ApiBusvehicle.sentQuery w r)] := by
  unfold apiURL at hnew
  simp only [ApiBusvehicle.Handler, beq_iff_eq, hm, hop, if_false, hnew, Bool.not_true,
    Bool.false_eq_true]
  repeat' split
  all_goals rfl

/-! ## The claims -/

/-- C1: in both busstop handlers the resolved title of a stop record is the legacy
`dc:title` when that is non-empty; otherwise, when the polymorphic title is a mapping
holding a string under `"ja"`, that string; otherwise, when the polymorphic title is a
plain string, that string; and the empty string in every remaining case. -/
theorem C1_title_resolution (o : ODPTBusstopPole) :
    (o.DCTitle ≠ "" →
      Main.titleStr o = o.DCTitle ∧ ApiBusstoppole.titleStr o = o.DCTitle) ∧
    (o.DCTitle = "" → ∀ m ja, o.Title = JsonValue.object m →
      m.lookup "ja" = some (JsonValue.string ja) →
      Main.titleStr o = ja ∧ ApiBusstoppole.titleStr o = ja) ∧
    (o.DCTitle = "" → ∀ t, o.Title = JsonValue.string t →
      Main.titleStr o = t ∧ ApiBusstoppole.titleStr o = t) ∧
    (o.DCTitle = "" →
      (∀ m ja, ¬ (o.Title = JsonValue.object m ∧ m.lookup "ja" = some (JsonValue.string ja))) →
      (∀ t, o.Title ≠ JsonValue.string t) →
      Main.titleStr o = "" ∧ ApiBusstoppole.titleStr o = "") := by
  rw [main_titleStr_eq, api_titleStr_eq]
  refine ⟨?_, ?_, ?_, ?_⟩
  · intro h
    simp [resolvedTitle, h]
  · intro h m ja hm hja
    simp [resolvedTitle, h, hm, hja]
  · intro h t ht
    simp [resolvedTitle, h, ht]
  · intro h hobj hstr
    simp only [resolvedTitle, h, if_true, and_self]
    cases hT : o.Title with
    | object m =>
      simp only
      cases hl : m.lookup "ja" with
      | none => rfl
      | some v =>
        cases v with
        | string ja => exact absurd ⟨hT, hl⟩ (hobj m ja)
        | _ => rfl
    | string t => exact absurd hT (hstr t)
    | _ => rfl

/-- C1, at the record `A` (no legacy title, title mapping with `"ja"` entry `駅前`). -/
theorem C1_title_resolution_witness :
    Main.titleStr recordA = "駅前" ∧ ApiBusstoppole.titleStr recordA = "駅前" :=
  (C1_title_resolution recordA).2.1 rfl [("ja", JsonValue.string "駅前")] "駅前" rfl rfl

/-- C2: for every dataset and filter triple, the loop of either busstop handler returns
exactly the records that pass all active filters, in dataset order, each in the
flattened shape with the resolved title; that selection is a sublist of the dataset;
and each handler, once its dataset is loaded, answers 200 with that list for the
query parameters `id`, `title` and `sameAs`. -/
theorem C2_busstop_filter_map (ds : List ODPTBusstopPole) (i t s : String) :
    Main.busstopLoop ds i t s =
      (ds.filter (fun o => decide (passesFilters i t s o))).map flatten ∧
    ApiBusstoppole.busstopLoop ds i t s =
      (ds.filter (fun o => decide (passesFilters i t s o))).map flatten ∧
    (ds.filter (fun o => decide (passesFilters i t s o))).Sublist ds ∧
    (∀ (w : World) (r : Request) (ns name execPath : String) (file : Bytes),
      stringsSplit (queryGet r.query "operator") ':' = [ns, name] →
      w.osExecutable = some execPath →
      w.osReadFile (Main.chosenPath w execPath name) = some file →
      w.unmarshalBusstops file = some ds →
      (Main.getBusstopPole w r).response =
        ⟨StatusOK, Body.busstops ((ds.filter (fun o => decide (passesFilters
          (queryGet r.query "id") (queryGet r.query "title") (queryGet r.query "sameAs")
          o))).map flatten)⟩) ∧
    (∀ (w : World) (r : Request) (ns : String),
      r.method ≠ "OPTIONS" →
      stringsSplit (queryGet r.query "operator") ':' = [ns, "Toei"] →
      w.unmarshalBusstops w.toeiData = some ds →
      (ApiBusstoppole.Handler w r).response =
        ⟨StatusOK, Body.busstops ((ds.filter (fun o => decide (passesFilters
          (queryGet r.query "id") (queryGet r.query "title") (queryGet r.query "sameAs")
          o))).map flatten)⟩) := by
  refine ⟨main_busstopLoop_eq ds i t s, api_busstopLoop_eq ds i t s,
    List.filter_sublist _, ?_, ?_⟩
  · intro w r ns name execPath file hsplit hexe hread hjson
    have hne := stringsSplit_empty_operator ns name _ hsplit
    simp [Main.getBusstopPole, hsplit, hexe, hread, hjson, hne, encodeJSON_busstops,
      main_busstopLoop_eq]
  · intro w r ns hm hsplit hjson
    have hne := stringsSplit_empty_operator ns "Toei" _ hsplit
    simp [ApiBusstoppole.Handler, hsplit, hjson, hne, hm, encodeJSON_busstops,
      api_busstopLoop_eq]

/-- C2, at the two-record dataset served from the file system, with `title=駅`. -/
theorem C2_busstop_filter_map_witness :
    (Main.getBusstopPole worldAB
        (getRequest [("operator", "odpt.Operator:Toei"), ("title", "駅")])).response =
      ⟨StatusOK, Body.busstops ((datasetAB.filter (fun o => decide (passesFilters
        (queryGet (getRequest [("operator", "odpt.Operator:Toei"), ("title", "駅")]).query "id")
        (queryGet (getRequest [("operator", "odpt.Operator:Toei"), ("title", "駅")]).query "title")
        (queryGet (getRequest [("operator", "odpt.Operator:Toei"), ("title", "駅")]).query "sameAs")
        o))).map flatten)⟩ :=
  (C2_busstop_filter_map datasetAB "" "" "").2.2.2.1 worldAB
    (getRequest [("operator", "odpt.Operator:Toei"), ("title", "駅")])
    "odpt.Operator" "Toei" "/srv/app" [] (by decide) rfl (by decide) rfl

/-- C3: busstop filtering only narrows (the output is never longer than the dataset)
and is idempotent: running the loop again on the surviving records, or on the output
records read back as upstream records with a plain string title, gives the same list. -/
theorem C3_filter_narrowing_idempotent (ds : List ODPTBusstopPole) (i t s : String) :
    (Main.busstopLoop ds i t s).length ≤ ds.length ∧
    (ApiBusstoppole.busstopLoop ds i t s).length ≤ ds.length ∧
    Main.busstopLoop (ds.filter (fun o => decide (passesFilters i t s o))) i t s =
      Main.busstopLoop ds i t s ∧
    ApiBusstoppole.busstopLoop (ds.filter (fun o => decide (passesFilters i t s o))) i t s =
      ApiBusstoppole.busstopLoop ds i t s ∧
    Main.busstopLoop ((Main.busstopLoop ds i t s).map readBack) i t s =
      Main.busstopLoop ds i t s ∧
    ApiBusstoppole.busstopLoop ((ApiBusstoppole.busstopLoop ds i t s).map readBack) i t s =
      ApiBusstoppole.busstopLoop ds i t s := by
  simp only [main_busstopLoop_eq, api_busstopLoop_eq, List.length_map,
    List.filter_filter, Bool.and_self, filter_map_readBack, and_self, and_true]
  exact List.length_filter_le _ _

/-- C4: in the busstop handlers an operator string with exactly one colon splits into
two parts, the extracted operator name is the substring after the first colon (it is the
name the file-based handler builds its dataset paths from and the name the
embedded-asset handler compares with `Toei`), and the request is not answered with the
malformed-operator error; a non-empty operator string whose number of colons is not one
is answered with status 400, `invalid operator format`, before any access to the
outside world. -/
theorem C4_operator_parsing (w : World) (r : Request) (operator : String)
    (hop : queryGet r.query "operator" = operator) (hm : r.method ≠ "OPTIONS") :
    (operator.data.count ':' = 1 →
      (stringsSplit operator ':').length = 2 ∧
      (stringsSplit operator ':').getD 1 "" = afterFirstColon operator ∧
      (Main.getBusstopPole w r).response ≠
        httpError "invalid operator format" StatusBadRequest ∧
      (Main.busstoppoleRoute w r).response ≠
        httpError "invalid operator format" StatusBadRequest ∧
      (ApiBusstoppole.Handler w r).response ≠
        httpError "invalid operator format" StatusBadRequest ∧
      (∀ execPath, w.osExecutable = some execPath →
        (Main.getBusstopPole w r).trace =
          [Effect.osExecutable,
            Effect.osStat (Main.execRelativePath w execPath (afterFirstColon operator)),
            Effect.osReadFile (Main.chosenPath w execPath (afterFirstColon operator))]) ∧
      (afterFirstColon operator ≠ "Toei" →
        (ApiBusstoppole.Handler w r).response =
          httpError "Only Toei operator is supported" StatusBadRequest)) ∧
    (operator ≠ "" → operator.data.count ':' ≠ 1 →
      Main.getBusstopPole w r = ⟨[], httpError "invalid operator format" StatusBadRequest⟩ ∧
      Main.busstoppoleRoute w r = ⟨[], httpError "invalid operator format" StatusBadRequest⟩ ∧
      ApiBusstoppole.Handler w r = ⟨[], httpError "invalid operator format" StatusBadRequest⟩ ∧
      (httpError "invalid operator format" StatusBadRequest).status = 400) := by
  constructor
  · intro h1
    have hsplit := stringsSplit_colon_one operator h1
    have hne : operator ≠ "" := by
      intro h0
      subst h0
      simp at h1
    have hmain : (Main.getBusstopPole w r).response ≠
        httpError "invalid operator format" StatusBadRequest := by
      simp only [Main.getBusstopPole, hop, hsplit]
      simp only [beq_iff_eq, hne, if_false, List.length_cons, List.length_nil]
      cases w.osExecutable with
      | none => simp [httpError_badRequest, httpError_notFound, httpError_internalServerError, StatusBadRequest,
        StatusNotFound, StatusInternalServerError, StatusInternalServerError, StatusBadRequest]
      | some execPath =>
        simp only [List.getD_cons_succ, List.getD_cons_zero]
        cases w.osReadFile (Main.chosenPath w execPath (afterFirstColon operator)) with
        | none => simp [httpError_badRequest, httpError_notFound, httpError_internalServerError, StatusBadRequest,
        StatusNotFound, StatusInternalServerError, StatusNotFound, StatusBadRequest]
        | some file =>
          cases hj : w.unmarshalBusstops file with
          | none => simp [hj, httpError_badRequest, httpError_notFound, httpError_internalServerError, StatusBadRequest,
        StatusNotFound, StatusInternalServerError, StatusInternalServerError, StatusBadRequest]
          | some ds => simp [hj, httpError_badRequest, httpError_notFound, httpError_internalServerError, StatusBadRequest,
        StatusNotFound, StatusInternalServerError, encodeJSON_busstops, StatusOK, StatusBadRequest]
    refine ⟨by rw [hsplit]; rfl, by rw [hsplit]; rfl, hmain, ?_, ?_, ?_, ?_⟩
    · simpa [Main.busstoppoleRoute, Main.corsMiddleware, hm] using hmain
    · simp only [ApiBusstoppole.Handler, hop, hsplit]
      simp only [beq_iff_eq, hm, hne, if_false, List.length_cons, List.length_nil,
        List.getD_cons_succ, List.getD_cons_zero]
      by_cases hT : afterFirstColon operator = "Toei"
      · cases hj : w.unmarshalBusstops w.toeiData with
        | none => simp [hT, httpError_badRequest, httpError_notFound, httpError_internalServerError, StatusBadRequest,
        StatusNotFound, StatusInternalServerError, StatusInternalServerError, StatusBadRequest]
        | some ds => simp [hT, httpError_badRequest, httpError_notFound, httpError_internalServerError, StatusBadRequest,
        StatusNotFound, StatusInternalServerError, encodeJSON_busstops, StatusOK, StatusBadRequest]
      · simp [hT, httpError_badRequest, httpError_notFound, httpError_internalServerError, StatusBadRequest,
        StatusNotFound, StatusInternalServerError, StatusBadRequest]
    · intro execPath hexe
      simp only [Main.getBusstopPole, hop, hsplit, hexe]
      simp only [beq_iff_eq, hne, if_false, List.length_cons, List.length_nil,
        List.getD_cons_succ, List.getD_cons_zero]
      repeat' split
      all_goals first | rfl | simp at *
    · intro hT
      simp [ApiBusstoppole.Handler, hop, hsplit, hm, hne, hT]
  · intro hne hcount
    have hlen : (stringsSplit operator ':').length ≠ 2 := by
      rw [stringsSplit_length]
      omega
    have hmain : Main.getBusstopPole w r =
        ⟨[], httpError "invalid operator format" StatusBadRequest⟩ := by
      simp [Main.getBusstopPole, hop, hne, hlen]
    refine ⟨hmain, ?_, ?_, rfl⟩
    · simpa [Main.busstoppoleRoute, Main.corsMiddleware, hm] using hmain
    · simp [ApiBusstoppole.Handler, hop, hne, hlen, hm]

/-- C4, at the operator `odpt.Operator:Toei`: the extracted name is `Toei`. -/
theorem C4_operator_parsing_witness :
    (queryGet (getRequest [("operator", "odpt.Operator:Toei")]).query "operator" =
        "odpt.Operator:Toei" ∧
      (getRequest [("operator", "odpt.Operator:Toei")]).method ≠ "OPTIONS" ∧
      "odpt.Operator:Toei".data.count ':' = 1) ∧
    (stringsSplit "odpt.Operator:Toei" ':').getD 1 "" = "Toei" :=
  ⟨by decide,
    ((C4_operator_parsing worldAB (getRequest [("operator", "odpt.Operator:Toei")])
      "odpt.Operator:Toei" (by decide) (by decide)).1 (by decide)).2.1⟩

/-- C5 fails in the embedded-asset variant: the well-formed operator
`odpt.Operator:Keio`, whose name is not `Toei`, is answered with status 400, not 404.
It also fails in the file-based variant when the executable path cannot be determined:
no file is readable in `worldXY`, and the answer is 500, not 404. -/
theorem C5_counterexample :
    stringsSplit "odpt.Operator:Keio" ':' = ["odpt.Operator", "Keio"] ∧
    "Keio" ≠ "Toei" ∧
    (ApiBusstoppole.Handler worldAB (getRequest [("operator", "odpt.Operator:Keio")])).response =
      httpError "Only Toei operator is supported" StatusBadRequest ∧
    (ApiBusstoppole.Handler worldAB
      (getRequest [("operator", "odpt.Operator:Keio")])).response.status ≠ StatusNotFound ∧
    (Main.getBusstopPole worldXY (getRequest [("operator", "odpt.Operator:Keio")])).response =
      httpError "Internal server error" StatusInternalServerError ∧
    (Main.getBusstopPole worldXY
      (getRequest [("operator", "odpt.Operator:Keio")])).response.status ≠ StatusNotFound := by
  decide

/-- C5, amended: for a well-formed operator `ns:Name`, the embedded-asset handler
answers every `Name` other than `Toei` with status 400 (`Only Toei operator is
supported`); the file-based handler answers status 404 when the executable path is
resolved and the dataset file can be read from neither candidate path, and status 500
when the executable path cannot be determined. -/
theorem C5_unknown_operator (w : World) (r : Request) (ns name : String)
    (hsplit : stringsSplit (queryGet r.query "operator") ':' = [ns, name])
    (hm : r.method ≠ "OPTIONS") :
    (name ≠ "Toei" →
      ApiBusstoppole.Handler w r =
        ⟨[], httpError "Only Toei operator is supported" StatusBadRequest⟩ ∧
      (httpError "Only Toei operator is supported" StatusBadRequest).status = 400) ∧
    (∀ execPath, w.osExecutable = some execPath →
      w.osReadFile (Main.execRelativePath w execPath name) = none →
      w.osReadFile (Main.workingDirPath w name) = none →
      (Main.getBusstopPole w r).response =
        httpError ("Data not found for operator: " ++ queryGet r.query "operator")
          StatusNotFound ∧
      (Main.busstoppoleRoute w r).response =
        httpError ("Data not found for operator: " ++ queryGet r.query "operator")
          StatusNotFound ∧
      (httpError ("Data not found for operator: " ++ queryGet r.query "operator")
          StatusNotFound).status = 404) ∧
    (w.osExecutable = none →
      Main.getBusstopPole w r =
        ⟨[Effect.osExecutable], httpError "Internal server error" StatusInternalServerError⟩ ∧
      (httpError "Internal server error" StatusInternalServerError).status = 500) := by
  have hne := stringsSplit_empty_operator ns name _ hsplit
  refine ⟨?_, ?_, ?_⟩
  · intro hname
    exact ⟨by simp [ApiBusstoppole.Handler, hsplit, hne, hm, hname], rfl⟩
  · intro execPath hexe h1 h2
    have hread : w.osReadFile (Main.chosenPath w execPath name) = none := by
      unfold Main.chosenPath
      split
      · exact h2
      · exact h1
    have hmain : (Main.getBusstopPole w r).response =
        httpError ("Data not found for operator: " ++ queryGet r.query "operator")
          StatusNotFound := by
      simp [Main.getBusstopPole, hsplit, hne, hexe, hread]
    refine ⟨hmain, ?_, rfl⟩
    simpa [Main.busstoppoleRoute, Main.corsMiddleware, hm] using hmain
  · intro hexe
    exact ⟨by simp [Main.getBusstopPole, hsplit, hne, hexe], rfl⟩

/-- C5 amended, at `odpt.Operator:Keio` in a world holding only the `Toei` file. -/
theorem C5_unknown_operator_witness :
    (stringsSplit (queryGet (getRequest [("operator", "odpt.Operator:Keio")]).query "operator")
        ':' = ["odpt.Operator", "Keio"] ∧
      (getRequest [("operator", "odpt.Operator:Keio")]).method ≠ "OPTIONS" ∧
      worldAB.osExecutable = some "/srv/app" ∧
      worldAB.osReadFile (Main.execRelativePath worldAB "/srv/app" "Keio") = none ∧
      worldAB.osReadFile (Main.workingDirPath worldAB "Keio") = none) ∧
    (Main.getBusstopPole worldAB (getRequest [("operator", "odpt.Operator:Keio")])).response =
      httpError ("Data not found for operator: " ++
        queryGet (getRequest [("operator", "odpt.Operator:Keio")]).query "operator")
        StatusNotFound :=
  ⟨by decide,
    ((C5_unknown_operator worldAB (getRequest [("operator", "odpt.Operator:Keio")])
      "odpt.Operator" "Keio" (by decide) (by decide)).2.1 "/srv/app" rfl (by decide)
      (by decide)).1⟩

/-- C6: a non-`OPTIONS` request whose `operator` parameter is absent or empty is
answered with status 400 by all four handlers, with an empty trace: no environment
read, upstream call or file access happens before the response, which is the same in
every world. -/
theorem C6_missing_operator (w : World) (r : Request)
    (hm : r.method ≠ "OPTIONS")
    (hop : r.query.lookup "operator" = none ∨ r.query.lookup "operator" = some "") :
    Main.busvehicleRoute w r =
      ⟨[], httpError "operator parameter is required" StatusBadRequest⟩ ∧
    Main.busstoppoleRoute w r =
      ⟨[], httpError "operator parameter is required" StatusBadRequest⟩ ∧
    ApiBusvehicle.Handler w r =
      ⟨[], httpError "operator parameter is required" StatusBadRequest⟩ ∧
    ApiBusstoppole.Handler w r =
      ⟨[], httpError "operator parameter is required" StatusBadRequest⟩ ∧
    Main.getBusVehicleLocation w r =
      ⟨[], httpError "operator parameter is required" StatusBadRequest⟩ ∧
    Main.getBusstopPole w r =
      ⟨[], httpError "operator parameter is required" StatusBadRequest⟩ ∧
    (httpError "operator parameter is required" StatusBadRequest).status = 400 := by
  have hget : queryGet r.query "operator" = "" := by
    unfold queryGet
    rcases hop with h | h <;> rw [h]
  simp [Main.busvehicleRoute, Main.busstoppoleRoute, Main.corsMiddleware,
    Main.getBusVehicleLocation, Main.getBusstopPole, ApiBusvehicle.Handler,
    ApiBusstoppole.Handler, hget, hm, httpError_badRequest, StatusBadRequest]

/-- C6, at a request that carries only `id=A`. -/
theorem C6_missing_operator_witness :
    ((getRequest [("id", "A")]).method ≠ "OPTIONS" ∧
      (getRequest [("id", "A")]).query.lookup "operator" = none) ∧
    Main.busvehicleRoute worldAB (getRequest [("id", "A")]) =
      ⟨[], httpError "operator parameter is required" StatusBadRequest⟩ :=
  ⟨by decide,
    (C6_missing_operator worldAB (getRequest [("id", "A")]) (by decide) (Or.inl rfl)).1⟩

/-- C7 fails where `net/http` does not send what `http.Error` is given: an upstream 204
is answered with status 204 and no body, not with the handler's message; an upstream
status 99 makes `WriteHeader` panic, so no response with status 99 is written. -/
theorem C7_counterexample :
    ((204 : Int) ≠ StatusOK ∧
      (Main.getBusVehicleLocation (worldStatus 204)
          (getRequest [("operator", "odpt.Operator:Toei")])).response = ⟨204, Body.empty⟩ ∧
      (ApiBusvehicle.Handler (worldStatus 204)
          (getRequest [("operator", "odpt.Operator:Toei")])).response = ⟨204, Body.empty⟩ ∧
      (Main.getBusVehicleLocation (worldStatus 204)
          (getRequest [("operator", "odpt.Operator:Toei")])).response.body ≠
        Body.text "External API returned status: 204\n") ∧
    ((99 : Int) ≠ StatusOK ∧
      (Main.getBusVehicleLocation (worldStatus 99)
          (getRequest [("operator", "odpt.Operator:Toei")])).response = ⟨0, Body.aborted⟩ ∧
      (ApiBusvehicle.Handler (worldStatus 99)
          (getRequest [("operator", "odpt.Operator:Toei")])).response = ⟨0, Body.aborted⟩ ∧
      (Main.getBusVehicleLocation (worldStatus 99)
          (getRequest [("operator", "odpt.Operator:Toei")])).response.status ≠ 99) := by
  decide

/-- C7, amended: when the upstream answers with a status code `s` other than 200 in the
range 200..999, the vehicle handler of either variant responds with status `s` itself;
its body is its own message `External API returned status: <s>`, which contains `s`
and involves neither the upstream body nor any record, except for `s` = 204 and
`s` = 304, where the body is empty. -/
theorem C7_upstream_status (w : World) (r : Request) (resp : UpstreamResponse)
    (hop : queryGet r.query "operator" ≠ "")
    (hnew : w.newRequest "GET" apiURL = true)
    (hstatus : resp.StatusCode ≠ StatusOK)
    (hlow : 200 ≤ resp.StatusCode) (hhigh : resp.StatusCode ≤ 999) :
    (w.clientDo apiURL (Main.sentQuery w r) = some resp →
      (Main.getBusVehicleLocation w r).response.status = resp.StatusCode ∧
      (resp.StatusCode ≠ 204 → resp.StatusCode ≠ 304 →
        (Main.getBusVehicleLocation w r).response =
          ⟨resp.StatusCode,
            Body.text ("External API returned status: " ++ toString resp.StatusCode ++ "\n")⟩) ∧
      (resp.StatusCode = 204 ∨ resp.StatusCode = 304 →
        (Main.getBusVehicleLocation w r).response = ⟨resp.StatusCode, Body.empty⟩)) ∧
    (r.method ≠ "OPTIONS" → w.clientDo apiURL (ApiBusvehicle.sentQuery w r) = some resp →
      (ApiBusvehicle.Handler w r).response.status = resp.StatusCode ∧
      (resp.StatusCode ≠ 204 → resp.StatusCode ≠ 304 →
        (ApiBusvehicle.Handler w r).response =
          ⟨resp.StatusCode,
            Body.text ("External API returned status: " ++ toString resp.StatusCode ++ "\n")⟩) ∧
      (resp.StatusCode = 204 ∨ resp.StatusCode = 304 →
        (ApiBusvehicle.Handler w r).response = ⟨resp.StatusCode, Body.empty⟩)) ∧
    (toString resp.StatusCode).data <:+:
      ("External API returned status: " ++ toString resp.StatusCode ++ "\n").data := by
  unfold apiURL at hnew
  have hmain : w.clientDo apiURL (Main.sentQuery w r) = some resp →
      (Main.getBusVehicleLocation w r).response =
        httpError ("External API returned status: " ++ toString resp.StatusCode)
          resp.StatusCode := by
    intro hdo
    unfold Main.sentQuery apiURL at hdo
    simp [Main.getBusVehicleLocation, hop, hnew, hdo, hstatus]
  have hapi : r.method ≠ "OPTIONS" →
      w.clientDo apiURL (ApiBusvehicle.sentQuery w r) = some resp →
      (ApiBusvehicle.Handler w r).response =
        httpError ("External API returned status: " ++ toString resp.StatusCode)
          resp.StatusCode := by
    intro hm hdo
    unfold ApiBusvehicle.sentQuery apiURL at hdo
    simp [ApiBusvehicle.Handler, hm, hop, hnew, hdo, hstatus]
  have hcases : ∀ msg : String,
      (httpError msg resp.StatusCode).status = resp.StatusCode := by
    intro msg
    by_cases h : resp.StatusCode = 204 ∨ resp.StatusCode = 304
    · rw [httpError_bodiless msg _ h]
    · rw [not_or] at h
      rw [httpError_sent msg _ hlow hhigh h.1 h.2]
  refine ⟨?_, ?_, ?_⟩
  · intro hdo
    rw [hmain hdo]
    exact ⟨hcases _, fun h3 h4 => httpError_sent _ _ hlow hhigh h3 h4,
      fun h => httpError_bodiless _ _ h⟩
  · intro hm hdo
    rw [hapi hm hdo]
    exact ⟨hcases _, fun h3 h4 => httpError_sent _ _ hlow hhigh h3 h4,
      fun h => httpError_bodiless _ _ h⟩
  · exact ⟨"External API returned status: ".data, "\n".data, by simp [String.data_append]⟩

/-- C7 amended, at an upstream that answers 503: the response is 503 with the handler
message. -/
theorem C7_upstream_status_witness :
    (queryGet (getRequest [("operator", "odpt.Operator:Toei")]).query "operator" ≠ "" ∧
      worldAB.newRequest "GET" apiURL = true ∧
      (503 : Int) ≠ StatusOK ∧ (200 : Int) ≤ 503 ∧ (503 : Int) ≤ 999 ∧
      (503 : Int) ≠ 204 ∧ (503 : Int) ≠ 304 ∧
      worldAB.clientDo apiURL
        (Main.sentQuery worldAB (getRequest [("operator", "odpt.Operator:Toei")])) =
        some ⟨503, some [1]⟩) ∧
    (Main.getBusVehicleLocation worldAB
        (getRequest [("operator", "odpt.Operator:Toei")])).response =
      ⟨503, Body.text "External API returned status: 503\n"⟩ :=
  ⟨by decide,
    ((C7_upstream_status worldAB (getRequest [("operator", "odpt.Operator:Toei")])
      ⟨503, some [1]⟩ (by decide) rfl (by decide) (by decide) (by decide)).1 rfl).2.1
      (by decide) (by decide)⟩

/-- C9: for a request with a non-empty operator the vehicle handler of either variant
reads the credential and then makes one upstream call, whose query parameters are
exactly the operator under `odpt:operator`, each of the seven optional filters under
`odpt:<name>` if and only if it is non-empty, and the credential under
`acl:consumerKey` if and only if it is non-empty, each value verbatim and each key
once. -/
theorem C9_upstream_query (w : World) (r : Request)
    (hop : queryGet r.query "operator" ≠ "") (hnew : w.newRequest "GET" apiURL = true) :
    ((Main.getBusVehicleLocation w r).trace =
        [Effect.getenv "ODPT_CONSUMER_KEY", Effect.clientDo apiURL (Main.sentQuery w r)] ∧
      (∀ key value, (key, value) ∈ Main.sentQuery w r ↔
        expectedParam (w.getenv "ODPT_CONSUMER_KEY") r key value) ∧
      ((Main.sentQuery w r).map Prod.fst).Nodup) ∧
    (r.method ≠ "OPTIONS" →
      (ApiBusvehicle.Handler w r).trace =
        [Effect.getenv "odpt_consumer_key",
          Effect.clientDo apiURL (ApiBusvehicle.sentQuery w r)] ∧
      (∀ key value, (key, value) ∈ ApiBusvehicle.sentQuery w r ↔
        expectedParam (w.getenv "odpt_consumer_key") r key value) ∧
      ((ApiBusvehicle.sentQuery w r).map Prod.fst).Nodup) :=
  ⟨⟨main_trace w r hop hnew, main_mem_sentQuery w r,
      (main_keys_sublist _ _ _ _ _ _ _ _ _).nodup upstream_keys_nodup⟩,
    fun hm => ⟨api_trace w r hm hop hnew, api_mem_sentQuery w r,
      (api_keys_sublist _ _ _ _ _ _ _ _ _).nodup upstream_keys_nodup⟩⟩

/-- C9, at a request with `busNumber=B1`, an empty `busTimetable` and credential `k`. -/
theorem C9_upstream_query_witness :
    (queryGet (getRequest [("operator", "odpt.Operator:Toei"), ("busNumber", "B1"),
        ("busTimetable", "")]).query "operator" ≠ "" ∧
      worldXY.newRequest "GET" apiURL = true) ∧
    (Main.getBusVehicleLocation worldXY (getRequest [("operator", "odpt.Operator:Toei"),
        ("busNumber", "B1"), ("busTimetable", "")])).trace =
      [Effect.getenv "ODPT_CONSUMER_KEY",
        Effect.clientDo "https://api-public.odpt.org/api/v4/odpt:Bus"
          [("odpt:operator", "odpt.Operator:Toei"), ("odpt:busNumber", "B1"),
            ("acl:consumerKey", "k")]] :=
  ⟨by decide,
    (C9_upstream_query worldXY (getRequest [("operator", "odpt.Operator:Toei"),
      ("busNumber", "B1"), ("busTimetable", "")]) (by decide) rfl).1.1⟩

/-- C10: on the two-record dataset, `title=駅` alone returns exactly the record `A`
with title `駅前`, and `id=B` alone returns exactly the record `B` with title `Gate`,
in the loops and through both handlers. -/
theorem C10_concrete_filter :
    Main.busstopLoop datasetAB "" "駅" "" = [poleOf "A" "駅前"] ∧
    ApiBusstoppole.busstopLoop datasetAB "" "駅" "" = [poleOf "A" "駅前"] ∧
    Main.busstopLoop datasetAB "B" "" "" = [poleOf "B" "Gate"] ∧
    ApiBusstoppole.busstopLoop datasetAB "B" "" "" = [poleOf "B" "Gate"] ∧
    (Main.busstoppoleRoute worldAB
        (getRequest [("operator", "odpt.Operator:Toei"), ("title", "駅")])).response =
      ⟨StatusOK, Body.busstops [poleOf "A" "駅前"]⟩ ∧
    (ApiBusstoppole.Handler worldAB
        (getRequest [("operator", "odpt.Operator:Toei"), ("title", "駅")])).response =
      ⟨StatusOK, Body.busstops [poleOf "A" "駅前"]⟩ ∧
    (Main.busstoppoleRoute worldAB
        (getRequest [("operator", "odpt.Operator:Toei"), ("id", "B")])).response =
      ⟨StatusOK, Body.busstops [poleOf "B" "Gate"]⟩ ∧
    (ApiBusstoppole.Handler worldAB
        (getRequest [("operator", "odpt.Operator:Toei"), ("id", "B")])).response =
      ⟨StatusOK, Body.busstops [poleOf "B" "Gate"]⟩ := by
  decide

/-- C11: the two busstop implementations agree.  For every dataset and filter triple
the loop of `api/busstoppole.go` and the loop of `main.go` return the same list; and for
an operator whose extracted name is `Toei`, when the file-based handler resolves its
executable path and reads from its chosen path the very bytes embedded in the other
variant, both handlers give the same response (status and record list), which for a
dataset that decodes is 200 with the filtered list. -/
theorem C11_busstop_variants_agree (ds : List ODPTBusstopPole) (i t s : String) :
    ApiBusstoppole.busstopLoop ds i t s = Main.busstopLoop ds i t s ∧
    (∀ (w : World) (r : Request) (ns execPath : String),
      stringsSplit (queryGet r.query "operator") ':' = [ns, "Toei"] →
      w.osExecutable = some execPath →
      w.osReadFile (Main.chosenPath w execPath "Toei") = some w.toeiData →
      (ApiBusstoppole.Handler w r).response = (Main.busstoppoleRoute w r).response ∧
      (r.method ≠ "OPTIONS" →
        (ApiBusstoppole.Handler w r).response = (Main.getBusstopPole w r).response) ∧
      (r.method ≠ "OPTIONS" → w.unmarshalBusstops w.toeiData = some ds →
        (ApiBusstoppole.Handler w r).response =
            ⟨StatusOK, Body.busstops (ApiBusstoppole.busstopLoop ds (queryGet r.query "id")
              (queryGet r.query "title") (queryGet r.query "sameAs"))⟩ ∧
        (Main.getBusstopPole w r).response =
            ⟨StatusOK, Body.busstops (Main.busstopLoop ds (queryGet r.query "id")
              (queryGet r.query "title") (queryGet r.query "sameAs"))⟩)) := by
  refine ⟨by rw [api_busstopLoop_eq, main_busstopLoop_eq], ?_⟩
  intro w r ns execPath hsplit hexe hread
  have hne := stringsSplit_empty_operator ns "Toei" _ hsplit
  have hraw : r.method ≠ "OPTIONS" →
      (ApiBusstoppole.Handler w r).response = (Main.getBusstopPole w r).response := by
    intro hm
    cases hj : w.unmarshalBusstops w.toeiData with
    | none =>
      simp [ApiBusstoppole.Handler, Main.getBusstopPole, hsplit, hne, hm, hexe, hread, hj]
    | some parsed =>
      simp [ApiBusstoppole.Handler, Main.getBusstopPole, hsplit, hne, hm, hexe, hread, hj,
        api_busstopLoop_eq, main_busstopLoop_eq, encodeJSON_busstops]
  refine ⟨?_, hraw, ?_⟩
  · by_cases hm : r.method = "OPTIONS"
    · simp [ApiBusstoppole.Handler, Main.busstoppoleRoute, Main.corsMiddleware, hm]
    · rw [hraw hm]
      simp [Main.busstoppoleRoute, Main.corsMiddleware, hm]
  · intro hm hj
    constructor
    · simp [ApiBusstoppole.Handler, hsplit, hne, hm, hj, encodeJSON_busstops]
    · simp [Main.getBusstopPole, hsplit, hne, hexe, hread, hj, encodeJSON_busstops]

/-- C11, at the two-record dataset served both from the file system and as the
embedded asset, with `title=駅`. -/
theorem C11_busstop_variants_agree_witness :
    (stringsSplit (queryGet (getRequest [("operator", "odpt.Operator:Toei"),
        ("title", "駅")]).query "operator") ':' = ["odpt.Operator", "Toei"] ∧
      worldAB.osExecutable = some "/srv/app" ∧
      worldAB.osReadFile (Main.chosenPath worldAB "/srv/app" "Toei") = some worldAB.toeiData) ∧
    (ApiBusstoppole.Handler worldAB
        (getRequest [("operator", "odpt.Operator:Toei"), ("title", "駅")])).response =
      (Main.busstoppoleRoute worldAB
        (getRequest [("operator", "odpt.Operator:Toei"), ("title", "駅")])).response :=
  ⟨by decide,
    ((C11_busstop_variants_agree datasetAB "" "駅" "").2 worldAB
      (getRequest [("operator", "odpt.Operator:Toei"), ("title", "駅")])
      "odpt.Operator" "/srv/app" (by decide) rfl (by decide)).1⟩

end BusLocation
